import Mathlib

/-!
# Verification of `google/colab/_quickchart.py`

A shallow embedding of the quickchart column classifier, candidate
selectors and chart orchestrator, together with proofs about their
behaviour.

Modelling conventions:

* A pandas `DataFrame` is a list of named columns; each column carries its
  declared storage dtype and its list of values.
* A numpy/pandas dtype is represented by the observations the embedded code
  makes of it: its identity tag (used by the `in` membership tests against
  `_CATEGORICAL_DTYPES` / `_DATETIME_DTYPES`), its `kind` character, whether
  `pandas.api.types.is_numeric_dtype` holds of it, whether it is an instance
  of `np.dtype` (as opposed to a pandas extension dtype), and whether
  `np.issubdtype(dtype.base, np.number)` holds.
* A cell value is represented by the observations the embedded code makes of
  it: numbers, strings and booleans are carried literally; list-like
  containers (unhashable, iterable) and tuple-like containers (hashable,
  iterable) carry an opaque tag in place of their elements, since the code
  only ever asks whether a value is hashable and whether it is a non-string
  iterable, and compares values for equality.
* `itertools.islice(xs, k)` with `k = None` is the identity; `print` inside
  `find_charts` is modelled by returning the number of notices emitted.
-/

namespace Quickchart

/-- A value stored in a dataframe cell, abstracted to the observations
`_quickchart.py` makes of values: equality (for `Series.unique`),
hashability (for `pd.api.types.is_hashable`) and non-string iterability
(for `_all_values_scalar`). Container values carry an opaque tag in place
of their elements. -/
inductive Value where
  | vInt (n : Int)
  | vStr (s : String)
  | vBool (b : Bool)
  | vList (tag : Nat)
  | vTuple (tag : Nat)
deriving DecidableEq, Repr

/-- Models `pd.api.types.is_hashable`: everything except list-like containers. -/
def Value.is_hashable : Value → Bool
  | .vList _ => false
  | _ => true

/-- Models `_is_non_scalar` from `_all_values_scalar`: an `Iterable` that is not
`bytes`/`str`, i.e. a container; strings count as scalar. -/
def Value.is_non_scalar : Value → Bool
  | .vList _ => true
  | .vTuple _ => true
  | _ => false

/-- The numeric reading of a value, used for the elementwise `<=` of
`np.array(series)[:-1] <= np.array(series)[1:]`.  Only meaningful on
columns whose dtype base is a numpy number (the guard in
`_is_monotonically_increasing_numeric`), where values are numbers. -/
def Value.asNum : Value → Int
  | .vInt n => n
  | .vBool b => bif b then 1 else 0
  | _ => 0

/-- A storage dtype, abstracted to the observations `_quickchart.py` makes
of it.  `tag` is the dtype's identity, so that `dtype in (...)` membership
tests compare real dtype identity. -/
structure Dtype where
  tag : String
  /-- Models `isinstance(dtype, np.dtype)` (pandas extension dtypes are not). -/
  is_np_dtype : Bool
  /-- Models `dtype.kind`. -/
  kind : Char
  /-- Models `pandas.api.types.is_numeric_dtype(dtype)`. -/
  is_numeric : Bool
  /-- Models `np.issubdtype(dtype.base, np.number)`. -/
  base_is_np_number : Bool
deriving DecidableEq, Repr

/-- Models `np.dtype('object')`. -/
def np_object : Dtype := ⟨"object", true, 'O', false, false⟩

/-- Models `np.dtype('bool')`. -/
def np_bool : Dtype := ⟨"bool", true, 'b', true, false⟩

/-- Models `np.dtype('datetime64[ns]')`, a.k.a. `<M8[ns]`. -/
def np_datetime64ns : Dtype := ⟨"datetime64[ns]", true, 'M', false, false⟩

/-- Models `np.dtype('int64')`. -/
def np_int64 : Dtype := ⟨"int64", true, 'i', true, true⟩

/-- Models `np.dtype('float64')`. -/
def np_float64 : Dtype := ⟨"float64", true, 'f', true, true⟩

/-- Models `_CATEGORICAL_DTYPES = (np.dtype('object'), np.dtype('bool'))`. -/
def CATEGORICAL_DTYPES : List Dtype := [np_object, np_bool]

/-- Models `_DATETIME_DTYPES = (np.dtype('datetime64[ns]'),)`. -/
def DATETIME_DTYPES : List Dtype := [np_datetime64ns]

/-- Models `_DATETIME_DTYPE_KINDS = ('M',)`. -/
def DATETIME_DTYPE_KINDS : List Char := ['M']

/-- Models `_DATETIME_COLNAME_PATTERNS` (prefix/suffix matches). -/
def DATETIME_COLNAME_PATTERNS : List String :=
  ["date", "datetime", "time", "timestamp"]

/-- Models `_DATETIME_COLNAMES` (exact matches). -/
def DATETIME_COLNAMES : List String := ["dt", "t", "ts", "year"]

/-- Models `_CATEGORICAL_LARGE_SIZE_THRESHOLD = 8`. -/
def CATEGORICAL_LARGE_SIZE_THRESHOLD : Nat := 8

/-- A dataframe column: name, declared dtype, values. -/
structure Column where
  name : String
  dtype : Dtype
  values : List Value
deriving DecidableEq, Repr

/-- A dataframe: an ordered list of named columns. -/
structure DataFrame where
  cols : List Column
deriving DecidableEq, Repr

/-- Models `df[colname]`: lookup of a column by name (first match, as pandas
column access behaves on uniquely named columns). -/
def DataFrame.getCol (df : DataFrame) (n : String) : Column :=
  (df.cols.find? (fun c => c.name == n)).getD ⟨n, ⟨"", false, ' ', false, false⟩, []⟩

/-- The column names of a dataframe, in order (`df.columns`). -/
def DataFrame.colNames (df : DataFrame) : List String :=
  df.cols.map Column.name

/-- Models `len(series.unique())`: the number of distinct values. -/
def uniqueCount (vs : List Value) : Nat :=
  vs.dedup.length

/-- Models `all(df[colname].apply(pd.api.types.is_hashable))`. -/
def allHashable (vs : List Value) : Bool :=
  vs.all Value.is_hashable

/-- Models `_all_values_scalar(series)`: no value is a non-string iterable. -/
def all_values_scalar (vs : List Value) : Bool :=
  !(vs.any Value.is_non_scalar)

/-- Models `np.all(np.array(series)[:-1] <= np.array(series)[1:])`: elementwise
non-decreasing check over consecutive values (vacuously true for length
at most one, as `np.all` of an empty array is true). -/
def nondecreasing (xs : List Int) : Bool :=
  (xs.dropLast.zip xs.tail).all fun p => p.1 ≤ p.2

/-- Models `_is_monotonically_increasing_numeric(series)`: the series dtype is a
real `np.dtype` whose base is a numpy number, and the values are
non-decreasing end-to-end. -/
def is_monotonically_increasing_numeric (c : Column) : Bool :=
  c.dtype.is_np_dtype &&
    (c.dtype.base_is_np_number && nondecreasing (c.values.map Value.asNum))

/-- Whether the first character list is a prefix of the second. -/
def isPrefixOfChars : List Char → List Char → Bool
  | [], _ => true
  | _ :: _, [] => false
  | a :: as, b :: bs => a == b && isPrefixOfChars as bs

/-- Python `str.lower()`, as a character-wise map (the fixed pattern and
token sets are ASCII, where `Char.toLower` agrees with Python). -/
def pyLower (s : String) : String := String.mk (s.data.map Char.toLower)

/-- Python `str.startswith(p)`. -/
def pyStartswith (s p : String) : Bool := isPrefixOfChars p.data s.data

/-- Python `str.endswith(p)`. -/
def pyEndswith (s p : String) : Bool :=
  isPrefixOfChars p.data.reverse s.data.reverse

/-- Models `_matches_datetime_pattern(colname)`: the lower-cased name starts or
ends with one of `_DATETIME_COLNAME_PATTERNS`, or exactly equals one of
`_DATETIME_COLNAMES`. -/
def matches_datetime_pattern (colname : String) : Bool :=
  let colname := pyLower colname
  (DATETIME_COLNAME_PATTERNS.any fun p =>
      pyStartswith colname p || pyEndswith colname p) ||
    (DATETIME_COLNAMES.any fun c => colname == c)

/-- The primary dtype group a column is routed to by the `if`/`elif` chain
of `_classify_dtypes` (the two `filtered` branches — unhashable values, and
unrecognized dtype — are both `filtered`). -/
inductive PrimaryGroup where
  | filtered
  | singleton
  | categorical
  | datetime
  | numeric
deriving DecidableEq, Repr

/-- The `if`/`elif` chain in the classification loop of `_classify_dtypes`,
for one column, in source precedence order. -/
def primaryOf (c : Column) : PrimaryGroup :=
  if !allHashable c.values then .filtered
  else if uniqueCount c.values ≤ 1 then .singleton
  else if CATEGORICAL_DTYPES.contains c.dtype then .categorical
  else if DATETIME_DTYPES.contains c.dtype ||
      DATETIME_DTYPE_KINDS.contains c.dtype.kind then .datetime
  else if c.dtype.is_numeric then .numeric
  else .filtered

/-- The result of `_classify_dtypes`: the returned dict of column-name
lists. -/
structure DtypeGroups where
  numeric : List String
  categorical : List String
  large_categorical : List String
  datetime : List String
  timelike : List String
  singleton : List String
  filtered : List String
deriving DecidableEq, Repr

/-- Models `_classify_dtypes(df)`.  The source's single pass appends each column
to exactly one group list according to the first matching rule, so each
primary list is the in-order sublist of columns whose first matching rule
is that group (`primaryOf`).  The small/large categorical split and the
timelike tagging are the source's two further passes, which look columns up
by name (`df[colname]`). -/
def classify_dtypes (df : DataFrame)
    (categorical_size_threshold : Nat := CATEGORICAL_LARGE_SIZE_THRESHOLD) :
    DtypeGroups :=
  let cat_cols :=
    (df.cols.filter (fun c => primaryOf c == .categorical)).map Column.name
  { numeric :=
      (df.cols.filter (fun c => primaryOf c == .numeric)).map Column.name
    categorical := cat_cols.filter fun n =>
      uniqueCount (df.getCol n).values ≤ categorical_size_threshold
    large_categorical := cat_cols.filter fun n =>
      !(uniqueCount (df.getCol n).values ≤ categorical_size_threshold)
    datetime :=
      (df.cols.filter (fun c => primaryOf c == .datetime)).map Column.name
    timelike := df.colNames.filter fun n =>
      (matches_datetime_pattern n ||
          is_monotonically_increasing_numeric (df.getCol n)) &&
        all_values_scalar (df.getCol n).values
    singleton :=
      (df.cols.filter (fun c => primaryOf c == .singleton)).map Column.name
    filtered :=
      (df.cols.filter (fun c => primaryOf c == .filtered)).map Column.name }

/-- Models `itertools.islice(xs, k)` over a finite list; `k = None` yields the
whole sequence (as does a plain `xs[:None]` slice). -/
def islice (xs : List α) : Option Nat → List α
  | none => xs
  | some k => xs.take k

/-- Models `itertools.pairwise(xs)`: consecutive sliding pairs. -/
def pairwise : List α → List (α × α)
  | a :: b :: rest => (a, b) :: pairwise (b :: rest)
  | _ => []

/-- Models `itertools.product(xs, ys)`: cross product, first factor outermost. -/
def product (xs : List α) (ys : List β) : List (α × β) :=
  xs.flatMap fun x => ys.map fun y => (x, y)

/-- Models `itertools.product(xs, ys, zs)`: ternary cross product, first factor
outermost. -/
def product3 (xs : List α) (ys : List β) (zs : List γ) :
    List (α × β × γ) :=
  xs.flatMap fun x => ys.flatMap fun y => zs.map fun z => (x, y, z)

/-- Models `_select_first_k_pairs(colnames, k)`. -/
def select_first_k_pairs (colnames : List String) (k : Option Nat := none) :
    List (String × String) :=
  islice (pairwise colnames) k

/-- Models `_select_faceted_numeric_cols(numeric_cols, categorical_cols, k)`. -/
def select_faceted_numeric_cols (numeric_cols categorical_cols : List String)
    (k : Option Nat := none) : List (String × String) :=
  islice (product numeric_cols categorical_cols) k

/-- Models `_select_time_series_cols(time_cols, numeric_cols, categorical_cols, k)`.
The `None` placeholder substituted for an empty categorical list is
modelled by an `Option String` series slot. -/
def select_time_series_cols (time_cols numeric_cols categorical_cols :
    List String) (k : Option Nat := none) :
    List (String × String × Option String) :=
  let numeric_cols := numeric_cols.filter fun c => !time_cols.contains c
  let numeric_aggregates := ["count()"]
  let series_cols : List (Option String) :=
    if categorical_cols.isEmpty then [none] else categorical_cols.map some
  islice (product3 time_cols (numeric_cols ++ numeric_aggregates) series_cols) k

/-- A chart section as assembled by `determine_charts`: the chart family
label together with the candidate column tuples handed to the
chart-building collaborator for that family. -/
inductive SectionData where
  | histogram (cols : List String)
  | categoricalHistogram (cols : List String)
  | scatter (colPairs : List (String × String))
  | timeSeriesLine (colTriples : List (String × String × Option String))
  | valuePlot (cols : List String)
  | heatmap (colPairs : List (String × String))
  | facetedDistribution (colPairs : List (String × String))
deriving DecidableEq, Repr

/-- The number of candidate column tuples a section was built from. -/
def SectionData.numCandidates : SectionData → Nat
  | .histogram cols => cols.length
  | .categoricalHistogram cols => cols.length
  | .scatter colPairs => colPairs.length
  | .timeSeriesLine colTriples => colTriples.length
  | .valuePlot cols => cols.length
  | .heatmap colPairs => colPairs.length
  | .facetedDistribution colPairs => colPairs.length

/-- Modelled from the spec: the chart-building collaborator
(`_quickchart_helpers.histograms_section` and friends, not under `src/`)
"returns chart sections (each exposing its chart list)", one constructed
chart per candidate column tuple, so a section's `charts` attribute is
nonempty exactly when its candidate sequence is.  `determine_charts`
appends a section only `if section.charts`. -/
def appendIfCharts (s : SectionData) : List SectionData :=
  if s.numCandidates == 0 then [] else [s]

/-- The time-axis column list of `determine_charts`:
`dtype_groups['datetime'] + dtype_groups['timelike']`. -/
def time_cols_of (g : DtypeGroups) : List String :=
  g.datetime ++ g.timelike

/-- Models `determine_charts(df, dataframe_registry, max_chart_instances)`.  The
dataframe registry is only used for labelling inside the chart-building
collaborator and does not influence which sections are produced, so it is
not modelled.  Sections are appended in source order: histograms,
categorical histograms, scatter, time series, value plots, heatmaps,
faceted distributions. -/
def determine_charts (df : DataFrame)
    (max_chart_instances : Option Nat := none) : List SectionData :=
  let dtype_groups := classify_dtypes df
  let numeric_cols := dtype_groups.numeric
  let categorical_cols := dtype_groups.categorical
  let time_cols := time_cols_of dtype_groups
  (if numeric_cols.isEmpty then [] else
    appendIfCharts (.histogram (islice numeric_cols max_chart_instances))) ++
  (if categorical_cols.isEmpty then [] else
    appendIfCharts
      (.categoricalHistogram (islice categorical_cols max_chart_instances))) ++
  (if numeric_cols.length < 2 then [] else
    appendIfCharts
      (.scatter (select_first_k_pairs numeric_cols max_chart_instances))) ++
  (if time_cols.isEmpty then [] else
    appendIfCharts
      (.timeSeriesLine (select_time_series_cols time_cols numeric_cols
        categorical_cols max_chart_instances))) ++
  (if numeric_cols.isEmpty then [] else
    appendIfCharts (.valuePlot (islice numeric_cols max_chart_instances))) ++
  (if categorical_cols.length < 2 then [] else
    appendIfCharts
      (.heatmap (select_first_k_pairs categorical_cols max_chart_instances))) ++
  (if categorical_cols.isEmpty || numeric_cols.isEmpty then [] else
    appendIfCharts
      (.facetedDistribution (select_faceted_numeric_cols numeric_cols
        categorical_cols max_chart_instances)))

/-- Models `find_charts(df, max_chart_instances)`: runs `determine_charts` and
prints `No charts were generated by quickchart` when the section list is
empty.  The second component counts the informational notices emitted
(the dataframe-registry bootstrap only affects labelling and is not
modelled). -/
def find_charts (df : DataFrame)
    (max_chart_instances : Option Nat := none) :
    List SectionData × Nat :=
  let chart_sections := determine_charts df max_chart_instances
  (chart_sections, if chart_sections.isEmpty then 1 else 0)

/-! ## Concrete example dataframes -/

/-- A numeric column named `x` with unsorted values `[3, 1, 2]`. -/
def colX : Column := ⟨"x", np_int64, [.vInt 3, .vInt 1, .vInt 2]⟩

/-- A small categorical column named `c` with two distinct string values. -/
def colC : Column := ⟨"c", np_object, [.vStr "a", .vStr "b", .vStr "a"]⟩

/-- A datetime-dtyped column named `date` with scalar values. -/
def colDate : Column :=
  ⟨"date", np_datetime64ns, [.vInt 100, .vInt 200, .vInt 150]⟩

/-- The end-to-end example dataset of the spec: one numeric column, one
small categorical column, and one column named `date` with scalar
values. -/
def dfEx : DataFrame := ⟨[colX, colC, colDate]⟩

/-- An object-dtyped column whose name starts with `date` and which has
nine distinct scalar string values (above the categorical size
threshold). -/
def colDatex : Column :=
  ⟨"datex", np_object,
    [.vStr "a", .vStr "b", .vStr "c", .vStr "d", .vStr "e", .vStr "f",
     .vStr "g", .vStr "h", .vStr "i"]⟩

/-- A dataset whose only column is large-categorical and, at the same
time, tagged timelike. -/
def dfLarge : DataFrame := ⟨[colDatex]⟩

/-! ## Helper lemmas about the selector building blocks -/

theorem islice_none (xs : List α) : islice xs none = xs := rfl

theorem islice_some (xs : List α) (k : Nat) :
    islice xs (some k) = xs.take k := rfl

theorem mem_islice {xs : List α} {k : Option Nat} {x : α}
    (h : x ∈ islice xs k) : x ∈ xs := by
  cases k with
  | none => exact h
  | some k => exact List.mem_of_mem_take h

theorem length_islice_le (xs : List α) (k : Nat) :
    (islice xs (some k)).length ≤ k := by
  simp [islice, List.length_take]

theorem pairwise_eq_zip : (l : List α) → pairwise l = l.zip l.tail
  | [] => rfl
  | [_] => rfl
  | a :: b :: rest => by
    show (a, b) :: pairwise (b :: rest) = _
    rw [pairwise_eq_zip (b :: rest)]
    rfl

theorem mem_pairwise {l : List α} {x y : α} (h : (x, y) ∈ pairwise l) :
    x ∈ l ∧ y ∈ l := by
  rw [pairwise_eq_zip] at h
  have := List.of_mem_zip h
  exact ⟨this.1, List.mem_of_mem_tail this.2⟩

theorem mem_product {xs : List α} {ys : List β} {x : α} {y : β} :
    (x, y) ∈ product xs ys ↔ x ∈ xs ∧ y ∈ ys := by
  simp [product, List.mem_flatMap]

theorem length_flatMap_map (ys : List β) (zs : List γ) (f : β → γ → δ) :
    (ys.flatMap fun y => zs.map fun z => f y z).length
      = ys.length * zs.length := by
  induction ys with
  | nil => simp
  | cons b bs ih =>
    simp only [List.flatMap_cons, List.length_append, List.length_map,
      List.length_cons, ih]
    ring

theorem length_product (xs : List α) (ys : List β) :
    (product xs ys).length = xs.length * ys.length :=
  length_flatMap_map xs ys fun x y => (x, y)

theorem getElem?_product {xs : List α} {ys : List β} {i j : Nat} {x : α}
    {y : β} (hx : xs[i]? = some x) (hy : ys[j]? = some y) :
    (product xs ys)[i * ys.length + j]? = some (x, y) := by
  induction xs generalizing i with
  | nil => simp at hx
  | cons a as ih =>
    cases i with
    | zero =>
      have hj : j < ys.length := by
        by_contra hge
        rw [List.getElem?_eq_none (by omega)] at hy
        exact Option.noConfusion hy
      simp only [List.getElem?_cons_zero, Option.some.injEq] at hx
      subst hx
      simp only [List.getElem?_eq_getElem hj, Option.some.injEq] at hy
      simp [product, List.flatMap_cons, List.getElem?_append,
        List.length_map, hj, List.getElem?_map,
        List.getElem?_eq_getElem hj, hy]
    | succ i =>
      simp only [List.getElem?_cons_succ] at hx
      have : (1 + i) * ys.length + j = ys.length + (i * ys.length + j) := by
        ring
      simp only [Nat.succ_eq_add_one, Nat.add_comm i 1, this]
      rw [product, List.flatMap_cons,
        List.getElem?_append_right (by simp only [List.length_map]; omega)]
      simp only [List.length_map, Nat.add_sub_cancel_left]
      exact ih hx

theorem mem_product3 {xs : List α} {ys : List β} {zs : List γ} {x : α}
    {y : β} {z : γ} :
    (x, y, z) ∈ product3 xs ys zs ↔ x ∈ xs ∧ y ∈ ys ∧ z ∈ zs := by
  simp only [product3, List.mem_flatMap, List.mem_map]
  aesop

theorem length_product3 (xs : List α) (ys : List β) (zs : List γ) :
    (product3 xs ys zs).length = xs.length * (ys.length * zs.length) := by
  induction xs with
  | nil => simp [product3]
  | cons a as ih =>
    simp only [product3, List.flatMap_cons, List.length_append,
      List.length_cons] at *
    rw [ih, length_flatMap_map ys zs fun y z => (a, y, z)]
    ring

/-! ## Helper lemmas about classification -/

theorem name_inj {cols : List Column} (hnd : (cols.map Column.name).Nodup)
    {c c2 : Column} (hc : c ∈ cols) (hc2 : c2 ∈ cols)
    (h : c.name = c2.name) : c = c2 :=
  List.inj_on_of_nodup_map hnd hc hc2 h

theorem find?_name_eq {cols : List Column}
    (hnd : (cols.map Column.name).Nodup) {c : Column} (hc : c ∈ cols) :
    cols.find? (fun d => d.name == c.name) = some c := by
  induction cols with
  | nil => cases hc
  | cons d rest ih =>
    simp only [List.map_cons, List.nodup_cons] at hnd
    by_cases hd : d.name = c.name
    · rw [List.find?_cons_of_pos _ (by simp [hd])]
      rcases List.mem_cons.mp hc with rfl | hmem
      · rfl
      · exact absurd (hd ▸ List.mem_map_of_mem Column.name hmem) hnd.1
    · rw [List.find?_cons_of_neg _ (by simp [hd])]
      rcases List.mem_cons.mp hc with rfl | hmem
      · exact absurd rfl hd
      · exact ih hnd.2 hmem

theorem getCol_eq {df : DataFrame} (hnd : df.colNames.Nodup) {c : Column}
    (hc : c ∈ df.cols) : df.getCol c.name = c := by
  unfold DataFrame.colNames at hnd
  unfold DataFrame.getCol
  rw [find?_name_eq hnd hc]
  rfl

theorem mem_primary_filter_iff {df : DataFrame} (hnd : df.colNames.Nodup)
    (g : PrimaryGroup) {c : Column} (hc : c ∈ df.cols) :
    c.name ∈ (df.cols.filter fun d => primaryOf d == g).map Column.name ↔
      primaryOf c = g := by
  unfold DataFrame.colNames at hnd
  simp only [List.mem_map, List.mem_filter, beq_iff_eq]
  constructor
  · rintro ⟨c2, ⟨hc2, hp⟩, hname⟩
    rw [← name_inj hnd hc2 hc hname]
    exact hp
  · intro hp
    exact ⟨c, ⟨hc, hp⟩, rfl⟩

theorem mem_numeric_iff {df : DataFrame} (hnd : df.colNames.Nodup)
    {c : Column} (hc : c ∈ df.cols) :
    c.name ∈ (classify_dtypes df).numeric ↔ primaryOf c = .numeric :=
  mem_primary_filter_iff hnd .numeric hc

theorem mem_datetime_iff {df : DataFrame} (hnd : df.colNames.Nodup)
    {c : Column} (hc : c ∈ df.cols) :
    c.name ∈ (classify_dtypes df).datetime ↔ primaryOf c = .datetime :=
  mem_primary_filter_iff hnd .datetime hc

theorem mem_singleton_group_iff {df : DataFrame} (hnd : df.colNames.Nodup)
    {c : Column} (hc : c ∈ df.cols) :
    c.name ∈ (classify_dtypes df).singleton ↔ primaryOf c = .singleton :=
  mem_primary_filter_iff hnd .singleton hc

theorem mem_filtered_iff {df : DataFrame} (hnd : df.colNames.Nodup)
    {c : Column} (hc : c ∈ df.cols) :
    c.name ∈ (classify_dtypes df).filtered ↔ primaryOf c = .filtered :=
  mem_primary_filter_iff hnd .filtered hc

theorem mem_categorical_iff {df : DataFrame} (hnd : df.colNames.Nodup)
    {c : Column} (hc : c ∈ df.cols) :
    c.name ∈ (classify_dtypes df).categorical ↔
      primaryOf c = .categorical ∧
        uniqueCount c.values ≤ CATEGORICAL_LARGE_SIZE_THRESHOLD := by
  show c.name ∈ List.filter _ _ ↔ _
  rw [List.mem_filter, mem_primary_filter_iff hnd .categorical hc,
    getCol_eq hnd hc]
  simp

theorem mem_large_categorical_iff {df : DataFrame} (hnd : df.colNames.Nodup)
    {c : Column} (hc : c ∈ df.cols) :
    c.name ∈ (classify_dtypes df).large_categorical ↔
      primaryOf c = .categorical ∧
        ¬uniqueCount c.values ≤ CATEGORICAL_LARGE_SIZE_THRESHOLD := by
  show c.name ∈ List.filter _ _ ↔ _
  rw [List.mem_filter, mem_primary_filter_iff hnd .categorical hc,
    getCol_eq hnd hc]
  simp [Bool.not_eq_true', decide_eq_false_iff_not]

theorem mem_timelike_iff {df : DataFrame} (hnd : df.colNames.Nodup)
    {c : Column} (hc : c ∈ df.cols) :
    c.name ∈ (classify_dtypes df).timelike ↔
      ((matches_datetime_pattern c.name ||
          is_monotonically_increasing_numeric c) &&
        all_values_scalar c.values) = true := by
  show c.name ∈ List.filter _ _ ↔ _
  rw [List.mem_filter, getCol_eq hnd hc]
  constructor
  · rintro ⟨_, h⟩
    exact h
  · intro h
    exact ⟨List.mem_map_of_mem Column.name hc, h⟩

theorem numeric_subset_colNames (df : DataFrame) :
    (classify_dtypes df).numeric ⊆ df.colNames :=
  List.map_subset Column.name (List.filter_subset' _)

theorem datetime_subset_colNames (df : DataFrame) :
    (classify_dtypes df).datetime ⊆ df.colNames :=
  List.map_subset Column.name (List.filter_subset' _)

theorem singleton_subset_colNames (df : DataFrame) :
    (classify_dtypes df).singleton ⊆ df.colNames :=
  List.map_subset Column.name (List.filter_subset' _)

theorem filtered_subset_colNames (df : DataFrame) :
    (classify_dtypes df).filtered ⊆ df.colNames :=
  List.map_subset Column.name (List.filter_subset' _)

theorem categorical_subset_colNames (df : DataFrame) :
    (classify_dtypes df).categorical ⊆ df.colNames :=
  fun _ hn =>
    List.map_subset Column.name (List.filter_subset' _)
      (List.filter_subset' _ hn)

theorem large_categorical_subset_colNames (df : DataFrame) :
    (classify_dtypes df).large_categorical ⊆ df.colNames :=
  fun _ hn =>
    List.map_subset Column.name (List.filter_subset' _)
      (List.filter_subset' _ hn)

theorem timelike_subset_colNames (df : DataFrame) :
    (classify_dtypes df).timelike ⊆ df.colNames :=
  List.filter_subset' _

/-! ## Claim C1: the primary groups partition the columns -/

/-- The number of primary classification groups (numeric, small
categorical, large categorical, datetime, singleton, filtered) of a
classification result that contain a given column name. -/
def primary_membership_count (g : DtypeGroups) (n : String) : Nat :=
  (if n ∈ g.numeric then 1 else 0) +
    (if n ∈ g.categorical then 1 else 0) +
    (if n ∈ g.large_categorical then 1 else 0) +
    (if n ∈ g.datetime then 1 else 0) +
    (if n ∈ g.singleton then 1 else 0) +
    (if n ∈ g.filtered then 1 else 0)

/-- C1: for every dataframe with distinct column names, `_classify_dtypes`
assigns each column to exactly one primary group among numeric, small
categorical, large categorical, datetime, singleton and filtered (the
groups are pairwise disjoint and their union is the column set), while the
timelike list is an additional, possibly overlapping list over the same
column names that does not affect primary-group membership. -/
theorem classifier_primary_partition (df : DataFrame)
    (hnd : df.colNames.Nodup) :
    (∀ c ∈ df.cols,
      primary_membership_count (classify_dtypes df) c.name = 1) ∧
    (∀ n : String, primary_membership_count (classify_dtypes df) n ≠ 0 →
      n ∈ df.colNames) ∧
    ∀ n ∈ (classify_dtypes df).timelike, n ∈ df.colNames := by
  refine ⟨fun c hc => ?_, fun n hn => ?_,
    fun n hn => timelike_subset_colNames df hn⟩
  · have h1 := mem_numeric_iff hnd hc
    have h2 := mem_categorical_iff hnd hc
    have h3 := mem_large_categorical_iff hnd hc
    have h4 := mem_datetime_iff hnd hc
    have h5 := mem_singleton_group_iff hnd hc
    have h6 := mem_filtered_iff hnd hc
    cases hp : primaryOf c <;>
      by_cases hu : uniqueCount c.values ≤ CATEGORICAL_LARGE_SIZE_THRESHOLD <;>
      simp [primary_membership_count, h1, h2, h3, h4, h5, h6, hp, hu]
  · by_contra hmem
    apply hn
    have h1 : n ∉ (classify_dtypes df).numeric :=
      fun h => hmem (numeric_subset_colNames df h)
    have h2 : n ∉ (classify_dtypes df).categorical :=
      fun h => hmem (categorical_subset_colNames df h)
    have h3 : n ∉ (classify_dtypes df).large_categorical :=
      fun h => hmem (large_categorical_subset_colNames df h)
    have h4 : n ∉ (classify_dtypes df).datetime :=
      fun h => hmem (datetime_subset_colNames df h)
    have h5 : n ∉ (classify_dtypes df).singleton :=
      fun h => hmem (singleton_subset_colNames df h)
    have h6 : n ∉ (classify_dtypes df).filtered :=
      fun h => hmem (filtered_subset_colNames df h)
    simp [primary_membership_count, h1, h2, h3, h4, h5, h6]

/-- Witness for C1 on the concrete dataset `dfEx`. -/
theorem classifier_primary_partition_witness :
    primary_membership_count (classify_dtypes dfEx) colX.name = 1 :=
  (classifier_primary_partition dfEx (by decide)).1 colX (by decide)

/-! ## Claim C3: characterization of the timelike tag -/

theorem nondecreasing_cons_cons (a b : Int) (t : List Int) :
    nondecreasing (a :: b :: t) = (decide (a ≤ b) && nondecreasing (b :: t)) :=
  rfl

theorem nondecreasing_iff_chain : ∀ xs : List Int,
    nondecreasing xs = true ↔ List.Chain' (fun a b => a ≤ b) xs
  | [] => by simp [nondecreasing]
  | [a] => by simp [nondecreasing]
  | a :: b :: t => by
    rw [nondecreasing_cons_cons, Bool.and_eq_true, decide_eq_true_eq,
      List.chain'_cons, nondecreasing_iff_chain (b :: t)]

/-- C3: a column is tagged timelike iff ((its lower-cased name starts or
ends with one of the fixed affixes, or exactly equals one of the fixed
tokens) OR (its storage dtype is a native numpy array type whose base is a
numpy number and its value sequence is non-decreasing end-to-end)) AND
every value of the column is scalar (not a container; strings and bytes
count as scalar).  In particular (witness) an unsorted numeric column with
a non-matching name is not tagged. -/
theorem timelike_tag_characterization (df : DataFrame)
    (hnd : df.colNames.Nodup) (c : Column) (hc : c ∈ df.cols) :
    c.name ∈ (classify_dtypes df).timelike ↔
      (((∃ p ∈ DATETIME_COLNAME_PATTERNS,
            pyStartswith (pyLower c.name) p = true ∨
              pyEndswith (pyLower c.name) p = true) ∨
          pyLower c.name ∈ DATETIME_COLNAMES) ∨
        c.dtype.is_np_dtype = true ∧ c.dtype.base_is_np_number = true ∧
          List.Chain' (fun a b => a ≤ b) (c.values.map Value.asNum)) ∧
      ∀ v ∈ c.values, v.is_non_scalar = false := by
  rw [mem_timelike_iff hnd hc]
  simp only [matches_datetime_pattern, is_monotonically_increasing_numeric,
    all_values_scalar, Bool.and_eq_true, Bool.or_eq_true, List.any_eq_true,
    beq_iff_eq, Bool.not_eq_true', List.any_eq_false, Bool.not_eq_true,
    nondecreasing_iff_chain]
  constructor
  · rintro ⟨hpat | hmono, hscal⟩
    · refine ⟨.inl ?_, hscal⟩
      rcases hpat with ⟨p, hp, hsw⟩ | ⟨c2, hc2, hEq⟩
      · exact .inl ⟨p, hp, hsw⟩
      · exact .inr (hEq ▸ hc2)
    · exact ⟨.inr ⟨hmono.1, hmono.2⟩, hscal⟩
  · rintro ⟨hpat | hmono, hscal⟩
    · refine ⟨.inl ?_, hscal⟩
      rcases hpat with ⟨p, hp, hsw⟩ | hmem
      · exact .inl ⟨p, hp, hsw⟩
      · exact .inr ⟨pyLower c.name, hmem, rfl⟩
    · exact ⟨.inr ⟨hmono.1, hmono.2.1, hmono.2.2⟩, hscal⟩

/-- Witness for C3: the unsorted numeric column `x` of `dfEx`, whose name
matches no datetime pattern, is not tagged timelike. -/
theorem timelike_tag_characterization_witness :
    colX.name ∉ (classify_dtypes dfEx).timelike := fun h =>
  absurd
    ((timelike_tag_characterization dfEx (by decide) colX (by decide)).mp h)
    (by
      rintro ⟨hl | ⟨-, -, hchain⟩, -⟩
      · exact absurd hl (by decide)
      · rw [← nondecreasing_iff_chain] at hchain
        exact absurd hchain (by decide))

/-! ## Claim C4: the pair selector -/

/-- C4: for every column-name list and cap `k`, `_select_first_k_pairs`
returns the consecutive sliding pairs of the input in input order
(`l.zip l.tail`), truncated to the first `k` pairs — not full
combinations; in particular `[a, b, c, d]` with `k = 2` yields exactly
`[(a, b), (b, c)]`. -/
theorem select_first_k_pairs_spec :
    (∀ (l : List String) (k : Nat),
      select_first_k_pairs l (some k) = (l.zip l.tail).take k ∧
        (select_first_k_pairs l (some k)).length = min k (l.length - 1)) ∧
    ∀ a b c d : String,
      select_first_k_pairs [a, b, c, d] (some 2) = [(a, b), (b, c)] := by
  refine ⟨fun l k => ⟨?_, ?_⟩, fun a b c d => rfl⟩
  · rw [select_first_k_pairs, islice_some, pairwise_eq_zip]
  · rw [select_first_k_pairs, islice_some, pairwise_eq_zip]
    simp only [List.length_take, List.length_zip, List.length_tail]
    omega

/-! ## Claim C5: the faceted-pair selector -/

/-- C5: `_select_faceted_numeric_cols` returns the full cross product of
the numeric columns and the categorical columns, in input-list order with
the numeric index outermost (element `i * |cats| + j` is
`(numeric[i], cats[j])`), truncated to the first `k` pairs; with no cap
and inputs `[n1, n2]`, `[c1, c2]` it returns exactly
`[(n1, c1), (n1, c2), (n2, c1), (n2, c2)]`. -/
theorem select_faceted_pairs_spec :
    (∀ (ns cs : List String) (k : Nat),
      select_faceted_numeric_cols ns cs (some k) = (product ns cs).take k) ∧
    (∀ ns cs : List String,
      (select_faceted_numeric_cols ns cs none).length
        = ns.length * cs.length) ∧
    (∀ (ns cs : List String) (x y : String),
      (x, y) ∈ select_faceted_numeric_cols ns cs none ↔ x ∈ ns ∧ y ∈ cs) ∧
    (∀ (ns cs : List String) (i j : Nat) (x y : String),
      ns[i]? = some x → cs[j]? = some y →
        (select_faceted_numeric_cols ns cs none)[i * cs.length + j]?
          = some (x, y)) ∧
    ∀ n1 n2 c1 c2 : String,
      select_faceted_numeric_cols [n1, n2] [c1, c2] none
        = [(n1, c1), (n1, c2), (n2, c1), (n2, c2)] :=
  ⟨fun _ _ _ => rfl, fun ns cs => length_product ns cs,
    fun _ _ _ _ => mem_product, fun _ _ _ _ _ _ hx hy => getElem?_product hx hy,
    fun _ _ _ _ => rfl⟩

/-- Witness for C5: the pair at flat index `1 * 2 + 0` of the uncapped
selector output on `[n1, n2] × [c1, c2]` is `(n2, c1)`. -/
theorem select_faceted_pairs_spec_witness :
    (select_faceted_numeric_cols ["n1", "n2"] ["c1", "c2"] none)[2]?
      = some ("n2", "c1") :=
  select_faceted_pairs_spec.2.2.2.1 ["n1", "n2"] ["c1", "c2"] 1 0 "n2" "c1"
    rfl rfl

/-! ## Claim C6: the time-series selector -/

/-- C6: `_select_time_series_cols` returns the first `k` elements of the
cross product (time column) × (stripped numeric column or the literal
token `count()`) × (categorical column, or a single null placeholder when
the categorical list is empty), where the numeric list is first stripped
of every column that also appears in the time-column list; in particular
with zero categorical columns it still yields tuples, all with a null
series slot. -/
theorem select_time_series_spec (time numeric cats : List String) :
    (∀ k : Nat,
      select_time_series_cols time numeric cats (some k) =
        (select_time_series_cols time numeric cats none).take k) ∧
    (∀ (t v : String) (s : Option String),
      (t, v, s) ∈ select_time_series_cols time numeric cats none ↔
        t ∈ time ∧ (v = "count()" ∨ v ∈ numeric ∧ v ∉ time) ∧
          (cats = [] ∧ s = none ∨ ∃ c2 ∈ cats, s = some c2)) ∧
    (cats = [] →
      (∀ (k : Option Nat) (tup : String × String × Option String),
        tup ∈ select_time_series_cols time numeric cats k →
          tup.2.2 = none) ∧
      (time ≠ [] → select_time_series_cols time numeric cats none ≠ [])) := by
  have hsel : ∀ k, select_time_series_cols time numeric cats k =
      islice (product3 time
        ((numeric.filter fun c => !time.contains c) ++ ["count()"])
        (if cats.isEmpty then [none] else cats.map some)) k :=
    fun k => rfl
  refine ⟨fun k => rfl, fun t v s => ?_, fun hc => ⟨?_, ?_⟩⟩
  · rw [hsel, islice_none, mem_product3]
    have hv : v ∈ (numeric.filter fun c => !time.contains c) ++ ["count()"] ↔
        v = "count()" ∨ v ∈ numeric ∧ v ∉ time := by
      simp [List.mem_filter, or_comm]
    have hs : s ∈ (if cats.isEmpty then [none] else cats.map some) ↔
        (cats = [] ∧ s = none ∨ ∃ c2 ∈ cats, s = some c2) := by
      by_cases hcats : cats = []
      · subst hcats
        simp
      · rw [if_neg (by simpa [List.isEmpty_iff] using hcats)]
        simp [eq_comm, hcats]
    rw [hv, hs]
  · rintro k ⟨t, v, s⟩ htup
    have hmem := mem_islice (hsel k ▸ htup)
    rw [mem_product3] at hmem
    subst hc
    simpa using hmem.2.2
  · intro htime
    obtain ⟨t0, time', rfl⟩ := List.exists_cons_of_ne_nil htime
    apply List.ne_nil_of_mem (a := (t0, "count()", none))
    rw [hsel, islice_none, mem_product3]
    subst hc
    simp

/-- Witness for C6 at concrete inputs with zero categorical columns: the
selector still yields a nonempty sequence. -/
theorem select_time_series_spec_witness :
    select_time_series_cols ["t1"] ["n1"] [] none ≠ [] :=
  ((select_time_series_spec ["t1"] ["n1"] []).2.2 rfl).2 (by decide)

/-! ## Claim C8: empty result handling in `find_charts` -/

/-- C8: `find_charts` returns the sections of `determine_charts`
unchanged, and emits exactly one informational notice precisely when no
chart family yields any chart (and never more than one notice); an empty
result is returned normally, not raised as an error — the embedded
`find_charts` is a total function. -/
theorem find_charts_empty_notice (df : DataFrame) (k : Option Nat) :
    (find_charts df k).1 = determine_charts df k ∧
    ((find_charts df k).2 = 1 ↔ determine_charts df k = []) ∧
    (find_charts df k).2 ≤ 1 := by
  refine ⟨rfl, ?_, ?_⟩ <;>
    by_cases h : determine_charts df k = [] <;>
      simp [find_charts, h]

/-! ## Claim C7: candidate sequences respect the instance cap -/

theorem mem_appendIfCharts {s sec : SectionData}
    (h : s ∈ appendIfCharts sec) : s = sec := by
  unfold appendIfCharts at h
  split at h
  · cases h
  · simpa using h

theorem mem_ite_nil {c : Prop} [Decidable c] {l : List α} {s : α}
    (h : s ∈ if c then ([] : List α) else l) : s ∈ l := by
  split at h
  · cases h
  · exact h

/-- C7: with a supplied integer cap `k`, every section produced by
`determine_charts` was built from at most `k` candidate column tuples
(single columns for histogram, categorical-histogram and value-plot;
pairs for scatter, heatmap and faceted-distribution; triples for
time-series). -/
theorem determine_charts_respects_cap (df : DataFrame) (k : Nat) :
    ∀ s ∈ determine_charts df (some k), s.numCandidates ≤ k := by
  intro s hs
  simp only [determine_charts, List.mem_append] at hs
  rcases hs with ((((((hs | hs) | hs) | hs) | hs) | hs) | hs) <;>
    rw [mem_appendIfCharts (mem_ite_nil hs)] <;>
    exact length_islice_le _ k

/-- Witness for C7 on `dfEx` with cap `1`. -/
theorem determine_charts_respects_cap_witness :
    (SectionData.histogram ["x"]).numCandidates ≤ 1 :=
  determine_charts_respects_cap dfEx 1 (SectionData.histogram ["x"])
    (by decide)

/-! ## Claim C2: the end-to-end example -/

/-- C2 counterexample: `dfEx` matches the claim's dataset description —
exactly one numeric column, one small-categorical column, one column named
`date` with scalar values — yet `determine_charts` also produces a
faceted-distribution section (the dataset has at least one numeric and one
categorical column, which is all that family requires), contradicting the
claim that no faceted-distribution section is produced. -/
theorem end_to_end_example_counterexample :
    (classify_dtypes dfEx).numeric = ["x"] ∧
    (classify_dtypes dfEx).categorical = ["c"] ∧
    (classify_dtypes dfEx).large_categorical = [] ∧
    (classify_dtypes dfEx).datetime = ["date"] ∧
    (classify_dtypes dfEx).singleton = [] ∧
    (classify_dtypes dfEx).filtered = [] ∧
    all_values_scalar colDate.values = true ∧
    SectionData.facetedDistribution [("x", "c")] ∈
      determine_charts dfEx none := by
  decide

/-- C2 amended: a dataset classified with exactly one numeric column `n`,
one small-categorical column `c`, and one datetime column `dt` that is
also tagged timelike (as a scalar-valued column named `date` is), with
`n ≠ dt`, produces exactly the sections histogram,
categorical-histogram, time-series-line, value-plot and
faceted-distribution, in that fixed order, and no scatter or heatmap
section.  (The original claim wrongly omitted faceted-distribution, which
requires only one numeric and one categorical column, both present.) -/
theorem end_to_end_example_amended (df : DataFrame) (n c dt : String)
    (h1 : (classify_dtypes df).numeric = [n])
    (h2 : (classify_dtypes df).categorical = [c])
    (h3 : (classify_dtypes df).datetime = [dt])
    (h4 : (classify_dtypes df).timelike = [dt])
    (hne : n ≠ dt) :
    determine_charts df none =
      [.histogram [n], .categoricalHistogram [c],
       .timeSeriesLine [(dt, n, some c), (dt, "count()", some c),
         (dt, n, some c), (dt, "count()", some c)],
       .valuePlot [n], .facetedDistribution [(n, c)]] := by
  simp [determine_charts, h1, h2, h3, h4, time_cols_of, appendIfCharts,
    select_time_series_cols, select_first_k_pairs,
    select_faceted_numeric_cols, islice, product3, product, hne,
    List.filter_cons, SectionData.numCandidates]

/-- Witness for the amended C2 on the concrete dataset `dfEx`. -/
theorem end_to_end_example_amended_witness :
    determine_charts dfEx none =
      [.histogram ["x"], .categoricalHistogram ["c"],
       .timeSeriesLine [("date", "x", some "c"), ("date", "count()", some "c"),
         ("date", "x", some "c"), ("date", "count()", some "c")],
       .valuePlot ["x"], .facetedDistribution [("x", "c")]] :=
  end_to_end_example_amended dfEx "x" "c" "date" (by decide) (by decide)
    (by decide) (by decide) (by decide)

/-! ## Claim C9: which groups the chart families consume -/

/-- All column names occurring in the candidate tuples a section was built
from (the `count()` aggregate token and the null series placeholder are
part of the tuples, not column names, but `count()` is kept here and
handled explicitly in the theorem). -/
def SectionData.colNamesUsed : SectionData → List String
  | .histogram cols => cols
  | .categoricalHistogram cols => cols
  | .scatter ps => ps.flatMap fun p => [p.1, p.2]
  | .timeSeriesLine ts => ts.flatMap fun tr => [tr.1, tr.2.1] ++ tr.2.2.toList
  | .valuePlot cols => cols
  | .heatmap ps => ps.flatMap fun p => [p.1, p.2]
  | .facetedDistribution ps => ps.flatMap fun p => [p.1, p.2]

/-- C9 counterexample: in `dfLarge` the column `datex` is classified
large-categorical, yet — being also tagged timelike — it appears in a
candidate tuple of the time-series section, contradicting the claim that
no large-categorical column name appears in any candidate tuple. -/
theorem consumed_groups_counterexample :
    "datex" ∈ (classify_dtypes dfLarge).large_categorical ∧
    SectionData.timeSeriesLine [("datex", "count()", none)] ∈
      determine_charts dfLarge none ∧
    "datex" ∈
      (SectionData.timeSeriesLine [("datex", "count()", none)]).colNamesUsed
    := by
  decide

/-- C9 amended: `determine_charts` reads only the numeric, small
categorical, datetime and timelike groups of the classification result, so
every column name occurring in any candidate tuple of any produced section
is either the literal aggregate token `count()` or a member of one of
those four groups.  (Large-categorical, singleton or filtered columns can
still occur, but only by also being members of the overlapping timelike
list, as the counterexample shows.) -/
theorem consumed_groups_amended (df : DataFrame) (k : Option Nat) :
    ∀ s ∈ determine_charts df k, ∀ n ∈ s.colNamesUsed,
      n = "count()" ∨ n ∈ (classify_dtypes df).numeric ∨
        n ∈ (classify_dtypes df).categorical ∨
        n ∈ (classify_dtypes df).datetime ∨
        n ∈ (classify_dtypes df).timelike := by
  intro s hs n hn
  simp only [determine_charts, List.mem_append] at hs
  rcases hs with ((((((hs | hs) | hs) | hs) | hs) | hs) | hs) <;>
    rw [mem_appendIfCharts (mem_ite_nil hs)] at hn <;>
    simp only [SectionData.colNamesUsed, List.mem_flatMap] at hn
  · exact .inr (.inl (mem_islice hn))
  · exact .inr (.inr (.inl (mem_islice hn)))
  · obtain ⟨⟨p1, p2⟩, hp, hnp⟩ := hn
    have hpw := mem_pairwise (mem_islice hp)
    simp only [List.mem_cons, List.not_mem_nil, or_false] at hnp
    rcases hnp with rfl | rfl
    · exact .inr (.inl hpw.1)
    · exact .inr (.inl hpw.2)
  · obtain ⟨⟨t, v, so⟩, htr, hntr⟩ := hn
    have hmem : (t, v, so) ∈ product3 (time_cols_of (classify_dtypes df))
        (((classify_dtypes df).numeric.filter fun c2 =>
            !(time_cols_of (classify_dtypes df)).contains c2) ++ ["count()"])
        (if (classify_dtypes df).categorical.isEmpty then [none]
          else (classify_dtypes df).categorical.map some) :=
      mem_islice htr
    rw [mem_product3] at hmem
    simp only [List.mem_append, List.mem_cons, List.mem_singleton,
      List.not_mem_nil, or_false] at hntr
    rcases hntr with (rfl | rfl) | hso
    · rcases List.mem_append.mp hmem.1 with hd | ht2
      · exact .inr (.inr (.inr (.inl hd)))
      · exact .inr (.inr (.inr (.inr ht2)))
    · rcases List.mem_append.mp hmem.2.1 with hflt | hcnt
      · exact .inr (.inl (List.mem_filter.mp hflt).1)
      · exact .inl (List.mem_singleton.mp hcnt)
    · have hso2 : so = some n := by
        cases so with
        | none => cases hso
        | some m =>
          simp only [Option.toList_some, List.mem_singleton] at hso
          rw [hso]
      subst hso2
      have h22 := hmem.2.2
      split at h22
      · simp at h22
      · obtain ⟨c2, hc2, heq⟩ := List.mem_map.mp h22
        rw [Option.some.injEq] at heq
        exact .inr (.inr (.inl (heq ▸ hc2)))
  · exact .inr (.inl (mem_islice hn))
  · obtain ⟨⟨p1, p2⟩, hp, hnp⟩ := hn
    have hpw := mem_pairwise (mem_islice hp)
    simp only [List.mem_cons, List.not_mem_nil, or_false] at hnp
    rcases hnp with rfl | rfl
    · exact .inr (.inr (.inl hpw.1))
    · exact .inr (.inr (.inl hpw.2))
  · obtain ⟨⟨p1, p2⟩, hp, hnp⟩ := hn
    have hpr := mem_product.mp (mem_islice hp)
    simp only [List.mem_cons, List.not_mem_nil, or_false] at hnp
    rcases hnp with rfl | rfl
    · exact .inr (.inl hpr.1)
    · exact .inr (.inr (.inl hpr.2))

/-- Witness for the amended C9 on `dfLarge`. -/
theorem consumed_groups_amended_witness :
    "datex" = "count()" ∨ "datex" ∈ (classify_dtypes dfLarge).numeric ∨
      "datex" ∈ (classify_dtypes dfLarge).categorical ∨
      "datex" ∈ (classify_dtypes dfLarge).datetime ∨
      "datex" ∈ (classify_dtypes dfLarge).timelike :=
  consumed_groups_amended dfLarge none
    (SectionData.timeSeriesLine [("datex", "count()", none)]) (by decide)
    "datex" (by decide)

/-! ## Claim C10: duplicated time axis for datetime-and-timelike columns -/

/-- C10: the orchestrator's time-axis list is the concatenation of the
datetime group and the timelike list; in `dfEx` the column `date` is both
classified datetime and tagged timelike, so it appears twice in that list,
and the time-series candidate sequence contains duplicate
(time, value, series) tuples. -/
theorem time_axis_duplication :
    (∀ g : DtypeGroups, time_cols_of g = g.datetime ++ g.timelike) ∧
    (classify_dtypes dfEx).datetime = ["date"] ∧
    (classify_dtypes dfEx).timelike = ["date"] ∧
    SectionData.timeSeriesLine
        [("date", "x", some "c"), ("date", "count()", some "c"),
         ("date", "x", some "c"), ("date", "count()", some "c")] ∈
      determine_charts dfEx none ∧
    ¬ ([("date", "x", some "c"), ("date", "count()", some "c"),
        ("date", "x", some "c"), ("date", "count()", some "c")] :
        List (String × String × Option String)).Nodup :=
  ⟨fun _ => rfl, by decide⟩

end Quickchart
